import Mathlib

set_option maxHeartbeats 1000000

/-!
Verification of the RESP3-style wire-protocol decoder in
src/pkg/proto/resp3.go.

The byte stream consumed by the decoder is modelled as a list of
characters (the inputs of interest are ASCII, one character per byte).
Each Go function returning a pair of a value and a Go error is embedded
as a state-passing function from the input stream to an outcome that
carries the returned value, the returned error (possibly nil), and the
remaining stream.  A Go panic is a separate outcome constructor carrying
the stream position at which the panic fired, and running out of the
fuel that bounds the embedded recursion is a further, clearly marked
model-only outcome.
-/

namespace Resp3

/-- Errors observable by the decoder: I/O failures from the byte source,
the distinguished sentinel value stored in the package-level variable
given by errors.New (named chunked in the source, compared with == by
callers), and non-nil errors produced by the strconv parsing functions. -/
inductive RErr where
  | ioErr : RErr
  | chunked : RErr
  | parseErr : RErr
deriving DecidableEq

/-- The byte stream consumed by the decoder. -/
abbrev ByteStream := List Char

/-- Outcome of running one embedded Go function on a stream: a normal
return carrying the returned value, the returned error (none models a
nil Go error), and the remaining stream; a Go panic carrying the stream
position at the panic; or exhaustion of the recursion fuel (a model-only
outcome, produced by no actual code path of the source). -/
inductive Out (α : Type) where
  | ret (v : α) (e : Option RErr) (rest : ByteStream)
  | panicked (m : String) (rest : ByteStream)
  | fuelOut

/-- Model of a Go float64 as far as this decoder observes it: the zero
value produced by a failed strconv.ParseFloat, or the value parsed from
a given piece of text.  The decoder never computes with float values, so
no arithmetic structure is needed. -/
inductive GoFloat where
  | zero
  | parsed (s : String)
deriving DecidableEq

/-- Modelled from the spec: the Message data model of section 3 (the Go
types String, Error, Int64, BigInt, Float64, Bool, Nil, Verbatim, Array,
Set, Map, Push and Attributes are declared outside src/).  Every
non-Attributes variant carries an optional attached attribute set, a
pair of parallel key/value sequences, default absent.  Go slices of the
Message interface may hold nil interface values, so aggregate payloads
are sequences of optional messages, and the nil Go interface value is
Option.none. -/
inductive Message : Type where
  | mstring (v : String) (attrs : Option (List (Option Message) × List (Option Message)))
  | merror (v : String) (attrs : Option (List (Option Message) × List (Option Message)))
  | mint64 (v : Int) (attrs : Option (List (Option Message) × List (Option Message)))
  | mbigint (v : Int) (attrs : Option (List (Option Message) × List (Option Message)))
  | mfloat64 (v : GoFloat) (attrs : Option (List (Option Message) × List (Option Message)))
  | mbool (v : Bool) (attrs : Option (List (Option Message) × List (Option Message)))
  | mnil (attrs : Option (List (Option Message) × List (Option Message)))
  | mverbatim (t : String) (v : String) (attrs : Option (List (Option Message) × List (Option Message)))
  | marray (v : List (Option Message)) (attrs : Option (List (Option Message) × List (Option Message)))
  | mset (v : List (Option Message)) (attrs : Option (List (Option Message) × List (Option Message)))
  | mmap (k : List (Option Message)) (v : List (Option Message)) (attrs : Option (List (Option Message) × List (Option Message)))
  | mpush (v : List (Option Message)) (attrs : Option (List (Option Message) × List (Option Message)))
  | mattributes (k : List (Option Message)) (v : List (Option Message))

/-- An attribute set: parallel key and value sequences. -/
abbrev AttrSet := List (Option Message) × List (Option Message)

/-- Modelled from the spec: the SetAttributes method of the Message
model (declared outside src/), the single mutation that attaches an
attribute set to a decoded value.  The Attributes variant itself is
never a target of SetAttributes in the source, so it is left unchanged. -/
def Message.setAttributes (m : Message) (a : AttrSet) : Message :=
  match m with
  | .mstring v _ => .mstring v (some a)
  | .merror v _ => .merror v (some a)
  | .mint64 v _ => .mint64 v (some a)
  | .mbigint v _ => .mbigint v (some a)
  | .mfloat64 v _ => .mfloat64 v (some a)
  | .mbool v _ => .mbool v (some a)
  | .mnil _ => .mnil (some a)
  | .mverbatim t v _ => .mverbatim t v (some a)
  | .marray v _ => .marray v (some a)
  | .mset v _ => .mset v (some a)
  | .mmap k v _ => .mmap k v (some a)
  | .mpush v _ => .mpush v (some a)
  | .mattributes k v => .mattributes k v

/-! ## Byte source primitives

Modelled from the spec, section 4.1: the Byte Source contract (the
bufio.Reader and io.ReadFull operations are external collaborators). -/

/-- bufio.Reader.ReadByte: one byte, or an I/O error at end of stream
(the returned byte is then the zero value). -/
def readByte : ByteStream → Out Char
  | [] => .ret (Char.ofNat 0) (some .ioErr) []
  | c :: rest => .ret c none rest

/-- bufio.Reader.ReadBytes with delimiter newline: the bytes up to and
including the first newline; if the stream ends first, the bytes read so
far together with an I/O error, the stream being fully consumed. -/
def readBytesNL : ByteStream → List Char × Option RErr × ByteStream
  | [] => ([], some .ioErr, [])
  | c :: rest =>
    if c = '\n' then ([c], none, rest)
    else
      let (bs, e, r) := readBytesNL rest
      (c :: bs, e, r)

/-- bufio.Reader.Discard: skip n bytes; skipping fewer than n is an
I/O error, with the stream fully consumed. -/
def goDiscard : Nat → ByteStream → Option RErr × ByteStream
  | 0, i => (none, i)
  | _ + 1, [] => (some .ioErr, [])
  | n + 1, _ :: rest => goDiscard n rest

/-- io.ReadFull into a buffer of n bytes (also the byte-at-a-time read
loop of chunkString): the bytes read; a short read is an I/O error and
returns the bytes obtained so far with the stream fully consumed. -/
def readFull : Nat → ByteStream → List Char × Option RErr × ByteStream
  | 0, i => ([], none, i)
  | _ + 1, [] => ([], some .ioErr, [])
  | n + 1, c :: rest =>
    let (bs, e, r) := readFull n rest
    (c :: bs, e, r)

/-! ## Models of the Go standard library parsing functions -/

/-- Value of a nonempty run of decimal digits (accumulator form);
none if any character is not a digit. -/
def decDigitsAux : List Char → Nat → Option Nat
  | [], acc => some acc
  | c :: rest, acc =>
    if c.isDigit then decDigitsAux rest (acc * 10 + (c.toNat - 48)) else none

/-- Value of a nonempty all-digit character list, none otherwise. -/
def decDigits : List Char → Option Nat
  | [] => none
  | cs => decDigitsAux cs 0

/-- Modelled from the spec: strconv.ParseInt(s, 10, 64) from the Go
standard library (external to this repository).  An optional sign
followed by decimal digits; a syntax error returns the zero value with a
non-nil error; a value outside the signed 64-bit range returns the
extreme of the matching sign with a non-nil error. -/
def goParseInt (s : String) : Int × Option RErr :=
  let p : Int × List Char :=
    match s.data with
    | '+' :: rest => (1, rest)
    | '-' :: rest => (-1, rest)
    | cs => (1, cs)
  match decDigits p.2 with
  | none => (0, some .parseErr)
  | some n =>
    let v : Int := p.1 * n
    if v < -(2 ^ 63) then (-(2 ^ 63), some .parseErr)
    else if (2 ^ 63 - 1 : Int) < v then ((2 ^ 63 - 1 : Int), some .parseErr)
    else (v, none)

/-- Modelled from the spec: strconv.ParseBool from the Go standard
library (external to this repository): exactly the recognized truthy and
falsy tokens; anything else is the zero value with a non-nil error. -/
def goParseBool (s : String) : Bool × Option RErr :=
  if s = "1" ∨ s = "t" ∨ s = "T" ∨ s = "TRUE" ∨ s = "true" ∨ s = "True" then (true, none)
  else if s = "0" ∨ s = "f" ∨ s = "F" ∨ s = "FALSE" ∨ s = "false" ∨ s = "False" then (false, none)
  else (false, some .parseErr)

/-- Strip one optional leading sign character. -/
def stripSign : List Char → List Char
  | '+' :: rest => rest
  | '-' :: rest => rest
  | cs => cs

/-- A nonempty all-digit character list. -/
def isDigits (cs : List Char) : Bool :=
  !cs.isEmpty && cs.all (fun c => c.isDigit)

/-- Decimal mantissa: digits, optionally followed by a point and
further optional digits, or a point followed by digits; at least one
digit in total. -/
def mantissaOk (cs : List Char) : Bool :=
  let intPart := cs.takeWhile (fun c => c.isDigit)
  let rest := cs.dropWhile (fun c => c.isDigit)
  match rest with
  | [] => !intPart.isEmpty
  | '.' :: frac => (!intPart.isEmpty || !frac.isEmpty) && frac.all (fun c => c.isDigit)
  | _ => false

/-- Split a character list at the first exponent marker. -/
def splitExp : List Char → List Char × Option (List Char)
  | [] => ([], none)
  | c :: rest =>
    if c = 'e' ∨ c = 'E' then ([], some rest)
    else
      let (m, ex) := splitExp rest
      (c :: m, ex)

/-- Syntactic validity of a 64-bit float literal as accepted by
strconv.ParseFloat: optional sign, then a decimal mantissa with an
optional signed decimal exponent, or one of the case-insensitive words
for infinity and not-a-number.  (Hexadecimal float literals and digit
group separators, which no claim exercises, are not modelled.) -/
def floatSyntaxOk (s : String) : Bool :=
  let cs := stripSign s.data
  let lower := String.mk (cs.map Char.toLower)
  if lower = "inf" ∨ lower = "infinity" ∨ lower = "nan" then true
  else
    let (m, ex) := splitExp cs
    mantissaOk m &&
      (match ex with
       | none => true
       | some e2 => isDigits (stripSign e2))

/-- Modelled from the spec: strconv.ParseFloat(s, 64) from the Go
standard library (external to this repository), reduced to what the
decoder observes: success yields the parsed value and a nil error,
failure yields the zero value and a non-nil error. -/
def goParseFloat (s : String) : GoFloat × Option RErr :=
  if floatSyntaxOk s then (.parsed s, none) else (.zero, some .parseErr)

/-- Modelled from the spec: big.Int.SetString(s, 10) from the Go
standard library (external to this repository): an optional sign
followed by decimal digits, decoded losslessly; none on malformed
text. -/
def goBigSetString (s : String) : Option Int :=
  match s.data with
  | '+' :: rest => (decDigits rest).map (fun n => (n : Int))
  | '-' :: rest => (decDigits rest).map (fun n => -(n : Int))
  | cs => (decDigits cs).map (fun n => (n : Int))

/-! ## Scalar decoders (resp3.go) -/

/-- simpleString (resp3.go lines 36-47): read bytes through the next
newline; on a read error return the empty string with that error; a
line shorter than two bytes panics; otherwise drop the final two bytes
and return the rest as the text. -/
def simpleString (i : ByteStream) : Out String :=
  match readBytesNL i with
  | (_, some e, r) => .ret ("") (some e) r
  | (bs, none, r) =>
    if bs.length < 2 then
      .panicked ("received unexpected simple string message ending without CRLF") r
    else .ret (String.mk (bs.take (bs.length - 2))) none r

/-- SimpleString (resp3.go lines 49-55). -/
def SimpleString (i : ByteStream) : Out (Option Message) :=
  match simpleString i with
  | .panicked m r => .panicked m r
  | .fuelOut => .fuelOut
  | .ret _ (some e) r => .ret none (some e) r
  | .ret v none r => .ret (some (.mstring v none)) none r

/-- SimpleError (resp3.go lines 120-126). -/
def SimpleError (i : ByteStream) : Out (Option Message) :=
  match simpleString i with
  | .panicked m r => .panicked m r
  | .fuelOut => .fuelOut
  | .ret _ (some e) r => .ret none (some e) r
  | .ret v none r => .ret (some (.merror v none)) none r

/-- number (resp3.go lines 136-149): read a line; the literal question
mark returns the chunked sentinel; otherwise call strconv.ParseInt and,
exactly as the source does, return the zero value with the nil error
when the parse succeeded, and the parsed value with the error when it
failed. -/
def number (i : ByteStream) : Out Int :=
  match simpleString i with
  | .panicked m r => .panicked m r
  | .fuelOut => .fuelOut
  | .ret _ (some e) r => .ret 0 (some e) r
  | .ret str none r =>
    if str = "?" then .ret 0 (some .chunked) r
    else
      let p := goParseInt str
      if p.2 = none then .ret 0 none r
      else .ret p.1 p.2 r

/-- Number (resp3.go lines 151-157). -/
def Number (i : ByteStream) : Out (Option Message) :=
  match number i with
  | .panicked m r => .panicked m r
  | .fuelOut => .fuelOut
  | .ret _ (some e) r => .ret none (some e) r
  | .ret v none r => .ret (some (.mint64 v none)) none r

/-- blobString (resp3.go lines 57-70): read a length via number,
allocate that many bytes (a negative length panics in make), fill them
with io.ReadFull, discard the trailing terminator, return the bytes as
text. -/
def blobString (i : ByteStream) : Out String :=
  match number i with
  | .panicked m r => .panicked m r
  | .fuelOut => .fuelOut
  | .ret _ (some e) r => .ret ("") (some e) r
  | .ret length none r =>
    if length < 0 then .panicked ("makeslice: len out of range") r
    else
      match readFull length.toNat r with
      | (_, some e, r2) => .ret ("") (some e) r2
      | (bs, none, r2) =>
        match goDiscard 2 r2 with
        | (some e, r3) => .ret ("") (some e) r3
        | (none, r3) => .ret (String.mk bs) none r3

/-- chunkString (resp3.go lines 72-92): discard the chunk marker byte,
read a chunk length via number; on an error or a zero length return
zero with that error and the accumulator unchanged; otherwise append
that many bytes to the accumulator one at a time, discard the trailing
terminator and return the length.  The accumulator argument models the
strings.Builder passed by pointer. -/
def chunkString (i : ByteStream) (sb : String) : Out (Int × String) :=
  match goDiscard 1 i with
  | (some e, r) => .ret (0, sb) (some e) r
  | (none, r) =>
    match number r with
    | .panicked m r2 => .panicked m r2
    | .fuelOut => .fuelOut
    | .ret length e r2 =>
      if e ≠ none ∨ length = 0 then .ret (0, sb) e r2
      else
        match readFull length.toNat r2 with
        | (bs, some e2, r3) => .ret (0, sb ++ String.mk bs) (some e2) r3
        | (bs, none, r3) =>
          match goDiscard 2 r3 with
          | (some e2, r4) => .ret (0, sb ++ String.mk bs) (some e2) r4
          | (none, r4) => .ret (length, sb ++ String.mk bs) none r4

/-- The unbounded chunk loop in BlobString (resp3.go lines 97-104),
bounded by fuel: repeat chunkString until an error or a zero-length
chunk, then return the accumulated text as a String message. -/
def blobLoop : Nat → ByteStream → String → Out (Option Message)
  | 0, _, _ => .fuelOut
  | fuel + 1, i, sb =>
    match chunkString i sb with
    | .panicked m r => .panicked m r
    | .fuelOut => .fuelOut
    | .ret _ (some e) r => .ret none (some e) r
    | .ret p none r =>
      if p.1 = 0 then .ret (some (.mstring p.2 none)) none r
      else blobLoop fuel r p.2

/-- BlobString (resp3.go lines 94-110): a fixed-length blob, unless
number reported the chunked sentinel, in which case the chunk loop runs
with an empty accumulator. -/
def BlobString (fuel : Nat) (i : ByteStream) : Out (Option Message) :=
  match blobString i with
  | .panicked m r => .panicked m r
  | .fuelOut => .fuelOut
  | .ret _ (some .chunked) r => blobLoop fuel r ("")
  | .ret _ (some e) r => .ret none (some e) r
  | .ret v none r => .ret (some (.mstring v none)) none r

/-- VerbatimString (resp3.go lines 112-118): decode a blob; on an error
or a decoded blob of length at most four, return no message together
with the error as it stands; otherwise the first three characters are
the type code and everything after the fourth is the text. -/
def VerbatimString (i : ByteStream) : Out (Option Message) :=
  match blobString i with
  | .panicked m r => .panicked m r
  | .fuelOut => .fuelOut
  | .ret str e r =>
    if e ≠ none ∨ str.length ≤ 4 then .ret none e r
    else .ret (some (.mverbatim (str.take 3) (str.drop 4) none)) e r

/-- BlobError (resp3.go lines 128-134). -/
def BlobError (i : ByteStream) : Out (Option Message) :=
  match blobString i with
  | .panicked m r => .panicked m r
  | .fuelOut => .fuelOut
  | .ret _ (some e) r => .ret none (some e) r
  | .ret v none r => .ret (some (.merror v none)) none r

/-- BigNumber (resp3.go lines 159-169): read a line and decode it with
big.Int.SetString; malformed text panics. -/
def BigNumber (i : ByteStream) : Out (Option Message) :=
  match simpleString i with
  | .panicked m r => .panicked m r
  | .fuelOut => .fuelOut
  | .ret _ (some e) r => .ret none (some e) r
  | .ret str none r =>
    match goBigSetString str with
    | none => .panicked ("fail to decode the big number: " ++ str) r
    | some v => .ret (some (.mbigint v none)) none r

/-- Double (resp3.go lines 171-181): read a line and call
strconv.ParseFloat; exactly as the source does, return no message and
the nil error when the parse succeeded, and the value together with the
error when it failed. -/
def Double (i : ByteStream) : Out (Option Message) :=
  match simpleString i with
  | .panicked m r => .panicked m r
  | .fuelOut => .fuelOut
  | .ret _ (some e) r => .ret none (some e) r
  | .ret str none r =>
    let p := goParseFloat str
    if p.2 = none then .ret none none r
    else .ret (some (.mfloat64 p.1 none)) p.2 r

/-- Boolean (resp3.go lines 183-193): read a line and call
strconv.ParseBool; exactly as the source does, return no message and
the nil error when the parse succeeded, and the value together with the
error when it failed. -/
def Boolean (i : ByteStream) : Out (Option Message) :=
  match simpleString i with
  | .panicked m r => .panicked m r
  | .fuelOut => .fuelOut
  | .ret _ (some e) r => .ret none (some e) r
  | .ret str none r =>
    let p := goParseBool str
    if p.2 = none then .ret none none r
    else .ret (some (.mbool p.1 none)) p.2 r

/-- Null (resp3.go lines 195-198): discard the terminator and return a
Nil message together with whatever error the discard produced. -/
def Null (i : ByteStream) : Out (Option Message) :=
  match goDiscard 2 i with
  | (e, r) => .ret (some (.mnil none)) e r

/-- ReadEnd (resp3.go lines 304-307): discard the terminator and return
no message together with whatever error the discard produced. -/
def ReadEnd (i : ByteStream) : Out (Option Message) :=
  match goDiscard 2 i with
  | (e, r) => .ret none e r

/-- The tag bytes present in the readFns dispatch table
(resp3.go lines 17-34). -/
def knownTag (t : Char) : Bool :=
  t = '$' ∨ t = '+' ∨ t = '-' ∨ t = ':' ∨ t = '_' ∨ t = ',' ∨ t = '#' ∨
  t = '!' ∨ t = '=' ∨ t = '(' ∨ t = '*' ∨ t = '%' ∨ t = '~' ∨ t = '|' ∨
  t = '>' ∨ t = '.'

/-! ## Aggregate decoders and the top-level reader (resp3.go)

The mutual recursion between ReadNext and the aggregate decoders is
bounded by a fuel argument; every function peels one unit of fuel before
calling any other member of the block, so the recursion is structural on
the fuel.  The unbounded for loops of the source become the Loop
functions below.  The readFns map lookup of ReadNext is embedded as the
chain of tag comparisons inside readNextLoop, with the missing-key case
of the map becoming the final branch. -/

mutual

/-- The chunked-length loop of readArray (resp3.go lines 203-213):
call ReadNext until it yields no message and no error, accumulating the
messages in arrival order; fail on the first error, returning the nil
slice. -/
def readArrayChunkLoop : Nat → List (Option Message) → ByteStream →
    Out (Option (List (Option Message)))
  | 0, _, _ => .fuelOut
  | fuel + 1, acc, i =>
    match ReadNext fuel i with
    | .panicked m r => .panicked m r
    | .fuelOut => .fuelOut
    | .ret _ (some e) r => .ret none (some e) r
    | .ret none none r => .ret (some acc) none r
    | .ret (some n) none r => readArrayChunkLoop fuel (acc ++ [some n]) r

/-- The fixed-count loop of readArray (resp3.go lines 218-223): decode
exactly the requested number of elements via ReadNext, storing each
result (possibly the nil message) in order; fail on the first error,
returning the nil slice.  One unit of fuel is peeled per iteration,
including the final zero-count check, so the fuel must exceed the
element count. -/
def readArrayFixLoop : Nat → Nat → List (Option Message) → ByteStream →
    Out (Option (List (Option Message)))
  | 0, _, _, _ => .fuelOut
  | fuel + 1, n, acc, i =>
    if n = 0 then .ret (some acc) none i
    else
      match ReadNext fuel i with
      | .panicked m r => .panicked m r
      | .fuelOut => .fuelOut
      | .ret _ (some e) r => .ret none (some e) r
      | .ret v none r => readArrayFixLoop fuel (n - 1) (acc ++ [v]) r

/-- readArray (resp3.go lines 200-225): read a count via number; the
chunked sentinel selects the streamed loop, any other error fails, and a
concrete count selects the fixed loop (make panics on a negative
count). -/
def readArray : Nat → ByteStream → Out (Option (List (Option Message)))
  | 0, _ => .fuelOut
  | fuel + 1, i =>
    match number i with
    | .panicked m r => .panicked m r
    | .fuelOut => .fuelOut
    | .ret _ (some .chunked) r => readArrayChunkLoop fuel [] r
    | .ret _ (some e) r => .ret none (some e) r
    | .ret length none r =>
      if length < 0 then .panicked ("makeslice: len out of range") r
      else readArrayFixLoop fuel length.toNat [] r

/-- The chunked-length loop of readMap (resp3.go lines 230-246): read a
key via ReadNext; no message and no error ends the loop; otherwise read
a value via ReadNext and append the pair; fail on the first error,
returning the nil slices. -/
def readMapChunkLoop : Nat → List (Option Message) → List (Option Message) →
    ByteStream → Out (Option (List (Option Message) × List (Option Message)))
  | 0, _, _, _ => .fuelOut
  | fuel + 1, k, v, i =>
    match ReadNext fuel i with
    | .panicked m r => .panicked m r
    | .fuelOut => .fuelOut
    | .ret _ (some e) r => .ret none (some e) r
    | .ret none none r => .ret (some (k, v)) none r
    | .ret (some l) none r =>
      match ReadNext fuel r with
      | .panicked m r2 => .panicked m r2
      | .fuelOut => .fuelOut
      | .ret _ (some e) r2 => .ret none (some e) r2
      | .ret n none r2 => readMapChunkLoop fuel (k ++ [some l]) (v ++ [n]) r2

/-- The fixed-count loop of readMap (resp3.go lines 253-260): decode a
key and a value via ReadNext for each of the requested iterations,
storing the results (possibly nil messages) in parallel order; fail on
the first error, returning the nil slices.  One unit of fuel is peeled
per iteration, including the final zero-count check, so the fuel must
exceed the pair count. -/
def readMapFixLoop : Nat → Nat → List (Option Message) → List (Option Message) →
    ByteStream → Out (Option (List (Option Message) × List (Option Message)))
  | 0, _, _, _, _ => .fuelOut
  | fuel + 1, n, k, v, i =>
    if n = 0 then .ret (some (k, v)) none i
    else
      match ReadNext fuel i with
      | .panicked m r => .panicked m r
      | .fuelOut => .fuelOut
      | .ret _ (some e) r => .ret none (some e) r
      | .ret l none r =>
        match ReadNext fuel r with
        | .panicked m r2 => .panicked m r2
        | .fuelOut => .fuelOut
        | .ret _ (some e) r2 => .ret none (some e) r2
        | .ret w none r2 => readMapFixLoop fuel (n - 1) (k ++ [l]) (v ++ [w]) r2

/-- readMap (resp3.go lines 227-262): read a count via number; the
chunked sentinel selects the streamed loop, any other error fails, and a
concrete count selects the fixed loop (make panics on a negative
count). -/
def readMap : Nat → ByteStream →
    Out (Option (List (Option Message) × List (Option Message)))
  | 0, _ => .fuelOut
  | fuel + 1, i =>
    match number i with
    | .panicked m r => .panicked m r
    | .fuelOut => .fuelOut
    | .ret _ (some .chunked) r => readMapChunkLoop fuel [] [] r
    | .ret _ (some e) r => .ret none (some e) r
    | .ret length none r =>
      if length < 0 then .panicked ("makeslice: len out of range") r
      else readMapFixLoop fuel length.toNat [] [] r

/-- ReadArray (resp3.go lines 264-270): wrap the readArray slice in an
Array message (a nil slice yields the empty sequence, exactly as a nil
Go slice behaves inside the struct). -/
def ReadArray : Nat → ByteStream → Out (Option Message)
  | 0, _ => .fuelOut
  | fuel + 1, i =>
    match readArray fuel i with
    | .panicked m r => .panicked m r
    | .fuelOut => .fuelOut
    | .ret _ (some e) r => .ret none (some e) r
    | .ret (some v) none r => .ret (some (.marray v none)) none r
    | .ret none none r => .ret (some (.marray [] none)) none r

/-- ReadSet (resp3.go lines 272-278). -/
def ReadSet : Nat → ByteStream → Out (Option Message)
  | 0, _ => .fuelOut
  | fuel + 1, i =>
    match readArray fuel i with
    | .panicked m r => .panicked m r
    | .fuelOut => .fuelOut
    | .ret _ (some e) r => .ret none (some e) r
    | .ret (some v) none r => .ret (some (.mset v none)) none r
    | .ret none none r => .ret (some (.mset [] none)) none r

/-- ReadPush (resp3.go lines 280-286). -/
def ReadPush : Nat → ByteStream → Out (Option Message)
  | 0, _ => .fuelOut
  | fuel + 1, i =>
    match readArray fuel i with
    | .panicked m r => .panicked m r
    | .fuelOut => .fuelOut
    | .ret _ (some e) r => .ret none (some e) r
    | .ret (some v) none r => .ret (some (.mpush v none)) none r
    | .ret none none r => .ret (some (.mpush [] none)) none r

/-- ReadMap (resp3.go lines 288-294). -/
def ReadMap : Nat → ByteStream → Out (Option Message)
  | 0, _ => .fuelOut
  | fuel + 1, i =>
    match readMap fuel i with
    | .panicked m r => .panicked m r
    | .fuelOut => .fuelOut
    | .ret _ (some e) r => .ret none (some e) r
    | .ret (some p) none r => .ret (some (.mmap p.1 p.2 none)) none r
    | .ret none none r => .ret (some (.mmap [] [] none)) none r

/-- ReadAttributes (resp3.go lines 296-302). -/
def ReadAttributes : Nat → ByteStream → Out (Option Message)
  | 0, _ => .fuelOut
  | fuel + 1, i =>
    match readMap fuel i with
    | .panicked m r => .panicked m r
    | .fuelOut => .fuelOut
    | .ret _ (some e) r => .ret none (some e) r
    | .ret (some p) none r => .ret (some (.mattributes p.1 p.2)) none r
    | .ret none none r => .ret (some (.mattributes [] [])) none r

/-- The body of the for loop of ReadNext (resp3.go lines 309-334), with
the pending-attributes local as an argument: read a tag byte, dispatch
through the readFns table (an unknown tag panics before anything else is
read), propagate decoder errors, loop with the freshly decoded block as
the pending attributes on the attributes tag (the previous pending block
is overwritten), and otherwise attach any pending block to the decoded
message and return it.  Attaching to the nil message is a method call on
a nil Go interface value, which panics. -/
def readNextLoop : Nat → Option AttrSet → ByteStream → Out (Option Message)
  | 0, _, _ => .fuelOut
  | fuel + 1, attrs, i =>
    match readByte i with
    | .panicked m r => .panicked m r
    | .fuelOut => .fuelOut
    | .ret _ (some e) r => .ret none (some e) r
    | .ret t none r =>
      let res : Out (Option Message) :=
        if t = '$' then BlobString fuel r
        else if t = '+' then SimpleString r
        else if t = '-' then SimpleError r
        else if t = ':' then Number r
        else if t = '_' then Null r
        else if t = ',' then Double r
        else if t = '#' then Boolean r
        else if t = '!' then BlobError r
        else if t = '=' then VerbatimString r
        else if t = '(' then BigNumber r
        else if t = '*' then ReadArray fuel r
        else if t = '%' then ReadMap fuel r
        else if t = '~' then ReadSet fuel r
        else if t = '|' then ReadAttributes fuel r
        else if t = '>' then ReadPush fuel r
        else if t = '.' then ReadEnd r
        else .panicked ("received unknown message type: " ++ String.mk [t]) r
      match res with
      | .panicked m r2 => .panicked m r2
      | .fuelOut => .fuelOut
      | .ret _ (some e) r2 => .ret none (some e) r2
      | .ret msg none r2 =>
        if t = '|' then
          match msg with
          | some (.mattributes k v) => readNextLoop fuel (some (k, v)) r2
          | _ => .panicked ("interface conversion: Message is not Attributes") r2
        else
          match attrs with
          | none => .ret msg none r2
          | some a =>
            match msg with
            | none =>
              .panicked ("runtime error: invalid memory address or nil pointer dereference") r2
            | some m => .ret (some (m.setAttributes a)) none r2

/-- ReadNext (resp3.go lines 309-334): the top-level reader, entered
with no pending attributes. -/
def ReadNext : Nat → ByteStream → Out (Option Message)
  | 0, _ => .fuelOut
  | fuel + 1, i => readNextLoop fuel none i

end

/-! ## Theorems for the claims -/

/-- Claim C1 (failing evaluation).  The claim says decoding the input
colon 1 CRLF yields Int64(1).  The code yields Int64(0): number inverts
the strconv.ParseInt success check, returning the zero value with the
nil error exactly when the parse succeeded, so every valid integer line
decodes to zero. -/
theorem c1_integer_line_eval :
    ReadNext 9 ((":1\r\n").data) = .ret (some (.mint64 0 none)) none [] ∧
    (Message.mint64 0 none : Message) ≠ .mint64 1 none := by
  refine ⟨rfl, fun h => ?_⟩
  injection h with h1 h2
  exact absurd h1 (by decide)

/-- Claim C2 (failing evaluation).  The claim says decoding the blob
message with declared length five and payload hello yields
String(hello).  The code yields the empty String and leaves part of the
payload unconsumed, because the inverted parse check in number turns the
declared length five into zero. -/
theorem c2_blob_string_eval :
    ReadNext 9 (("$5\r\nhello\r\n").data) =
      .ret (some (.mstring ("") none)) none (("llo\r\n").data) ∧
    ("" : String) ≠ "hello" := ⟨rfl, by decide⟩

/-- Claim C3 (failing evaluation).  The claim says decoding the
streamed blob with chunks Hello and World yields String(HelloWorld).
The code yields the empty String after the first chunk header, because
the inverted parse check in number turns the chunk length five into
zero, which is the end-of-chunks condition. -/
theorem c3_chunked_blob_eval :
    ReadNext 9 (("$?\r\n;5\r\nHello\r\n;5\r\nWorld\r\n;0\r\n").data) =
      .ret (some (.mstring ("") none)) none (("Hello\r\n;5\r\nWorld\r\n;0\r\n").data) ∧
    ("" : String) ≠ "HelloWorld" := ⟨rfl, by decide⟩

/-- Claim C4 (failing evaluation).  The claim says the fixed and the
streamed aggregate encodings of the sequence 1, 2 both decode to
Array([Int64(1), Int64(2)]).  The code decodes the fixed form to the
empty Array (the count two parses to zero) and the streamed form to
Array([Int64(0), Int64(0)]), so the two framings do not even agree with
each other. -/
theorem c4_aggregate_eval :
    ReadNext 9 (("*2\r\n:1\r\n:2\r\n").data) =
      .ret (some (.marray [] none)) none ((":1\r\n:2\r\n").data) ∧
    ReadNext 9 (("*?\r\n:1\r\n:2\r\n.\r\n").data) =
      .ret (some (.marray [some (.mint64 0 none), some (.mint64 0 none)] none)) none [] ∧
    ([] : List (Option Message)) ≠ [some (.mint64 0 none), some (.mint64 0 none)] :=
  ⟨rfl, rfl, fun h => List.noConfusion h⟩

/-- Claim C5 (failing evaluation).  The claim says decoding the
attribute-prefixed input yields String(PONG) with the attribute pair
ttl to Int64(100).  The code decodes the attribute count one to zero, so
the attribute block is read as empty and the key line ttl is then
decoded as the next message: the result is String(ttl) carrying an
empty attribute set, with the rest of the input unconsumed. -/
theorem c5_attributes_eval :
    ReadNext 9 (("|1\r\n+ttl\r\n:100\r\n+PONG\r\n").data) =
      .ret (some (.mstring ("ttl") (some ([], [])))) none ((":100\r\n+PONG\r\n").data) ∧
    ("ttl" : String) ≠ "PONG" := ⟨rfl, by decide⟩

/-- Claim C8 (failing evaluation).  The stream-end tag alone decodes to
no message and no error, distinguishable from a Nil message; but when a
pending attribute block precedes the stream-end tag, ReadNext calls the
attach method on the nil message and panics instead of returning the
sentinel without attachment as the claim states. -/
theorem c8_stream_end_eval :
    ReadNext 9 ((".\r\n").data) = .ret none none [] ∧
    ReadEnd (("\r\n").data) = .ret none none [] ∧
    (none : Option Message) ≠ some (.mnil none) ∧
    ReadNext 9 (("|0\r\n.\r\n").data) =
      .panicked ("runtime error: invalid memory address or nil pointer dereference") [] :=
  ⟨rfl, rfl, fun h => Option.noConfusion h, rfl⟩

/-- Decomposition of a tag byte that is absent from the dispatch
table. -/
theorem knownTag_false_iff (t : Char) :
    knownTag t = false ↔
      t ≠ '$' ∧ t ≠ '+' ∧ t ≠ '-' ∧ t ≠ ':' ∧ t ≠ '_' ∧ t ≠ ',' ∧ t ≠ '#' ∧
      t ≠ '!' ∧ t ≠ '=' ∧ t ≠ '(' ∧ t ≠ '*' ∧ t ≠ '%' ∧ t ≠ '~' ∧ t ≠ '|' ∧
      t ≠ '>' ∧ t ≠ '.' := by
  simp [knownTag]

/-- Claim C6.  An unrecognized tag byte makes ReadNext panic, with the
panic outcome carrying the stream exactly as it stood after the tag
byte (nothing further is read); a line that big.Int fails to parse makes
BigNumber panic; and a panic outcome is distinct from every ordinary
error return, so it can be neither swallowed nor mistaken for an I/O
failure. -/
theorem c6_protocol_violation_fatal :
    (∀ (fuel : Nat) (t : Char) (i : ByteStream), knownTag t = false →
      ReadNext (fuel + 2) (t :: i) =
        .panicked ("received unknown message type: " ++ String.mk [t]) i) ∧
    (∀ (i : ByteStream) (s : String) (r : ByteStream),
      simpleString i = .ret s none r → goBigSetString s = none →
      BigNumber i = .panicked ("fail to decode the big number: " ++ s) r) ∧
    (∀ (m : String) (r : ByteStream) (v : Option Message) (e : RErr) (r2 : ByteStream),
      (Out.panicked m r : Out (Option Message)) ≠ .ret v (some e) r2) := by
  refine ⟨?_, ?_, ?_⟩
  · intro fuel t i hk
    obtain ⟨k1, k2, k3, k4, k5, k6, k7, k8, k9, k10, k11, k12, k13, k14, k15, k16⟩ :=
      (knownTag_false_iff t).mp hk
    show readNextLoop (fuel + 1) none (t :: i) = _
    rw [readNextLoop]
    simp [readByte, k1, k2, k3, k4, k5, k6, k7, k8, k9, k10, k11, k12, k13, k14, k15, k16]
  · intro i s r h hbig
    simp [BigNumber, h, hbig]
  · intro m r v e r2 h
    exact Out.noConfusion h

/-- Witness for claim C6 at a concrete unknown tag and a concrete
malformed big-integer line. -/
theorem c6_witness :
    ReadNext 2 (['z']) =
      .panicked ("received unknown message type: " ++ String.mk ['z']) [] ∧
    BigNumber (("abc\r\n").data) =
      .panicked ("fail to decode the big number: " ++ ("abc")) [] :=
  ⟨c6_protocol_violation_fatal.1 0 'z' [] (by decide),
   c6_protocol_violation_fatal.2.1 (("abc\r\n").data) ("abc") [] rfl rfl⟩

/-- Any error return from the chunked-array loop carries the nil
slice. -/
theorem readArrayChunkLoop_no_partial (fuel : Nat) :
    ∀ acc i v e r, readArrayChunkLoop fuel acc i = .ret v (some e) r → v = none := by
  induction fuel with
  | zero =>
    intro acc i v e r h
    exact Out.noConfusion h
  | succ fuel ih =>
    intro acc i v e r h
    rw [readArrayChunkLoop] at h
    split at h
    · exact Out.noConfusion h
    · exact Out.noConfusion h
    · injection h with h1 h2 h3
      exact h1.symm
    · injection h with h1 h2 h3
      exact Option.noConfusion h2
    · exact ih _ _ _ _ _ h

/-- Any error return from the fixed-count array loop carries the nil
slice. -/
theorem readArrayFixLoop_no_partial (fuel : Nat) :
    ∀ n acc i v e r, readArrayFixLoop fuel n acc i = .ret v (some e) r → v = none := by
  induction fuel with
  | zero =>
    intro n acc i v e r h
    exact Out.noConfusion h
  | succ fuel ih =>
    intro n acc i v e r h
    rw [readArrayFixLoop] at h
    split at h
    · injection h with h1 h2 h3
      exact Option.noConfusion h2
    · split at h
      · exact Out.noConfusion h
      · exact Out.noConfusion h
      · injection h with h1 h2 h3
        exact h1.symm
      · exact ih _ _ _ _ _ _ h

/-- Any error return from readArray carries the nil slice. -/
theorem readArray_no_partial (fuel : Nat) :
    ∀ i v e r, readArray fuel i = .ret v (some e) r → v = none := by
  intro i v e r h
  cases fuel with
  | zero => exact Out.noConfusion h
  | succ fuel =>
    rw [readArray] at h
    split at h
    · exact Out.noConfusion h
    · exact Out.noConfusion h
    · exact readArrayChunkLoop_no_partial fuel _ _ _ _ _ h
    · injection h with h1 h2 h3
      exact h1.symm
    · split at h
      · exact Out.noConfusion h
      · exact readArrayFixLoop_no_partial fuel _ _ _ _ _ _ h

/-- Any error return from the chunked-map loop carries the nil
slices. -/
theorem readMapChunkLoop_no_partial (fuel : Nat) :
    ∀ k v i kv e r, readMapChunkLoop fuel k v i = .ret kv (some e) r → kv = none := by
  induction fuel with
  | zero =>
    intro k v i kv e r h
    exact Out.noConfusion h
  | succ fuel ih =>
    intro k v i kv e r h
    rw [readMapChunkLoop] at h
    split at h
    · exact Out.noConfusion h
    · exact Out.noConfusion h
    · injection h with h1 h2 h3
      exact h1.symm
    · injection h with h1 h2 h3
      exact Option.noConfusion h2
    · split at h
      · exact Out.noConfusion h
      · exact Out.noConfusion h
      · injection h with h1 h2 h3
        exact h1.symm
      · exact ih _ _ _ _ _ _ h

/-- Any error return from the fixed-count map loop carries the nil
slices. -/
theorem readMapFixLoop_no_partial (fuel : Nat) :
    ∀ n k v i kv e r, readMapFixLoop fuel n k v i = .ret kv (some e) r → kv = none := by
  induction fuel with
  | zero =>
    intro n k v i kv e r h
    exact Out.noConfusion h
  | succ fuel ih =>
    intro n k v i kv e r h
    rw [readMapFixLoop] at h
    split at h
    · injection h with h1 h2 h3
      exact Option.noConfusion h2
    · split at h
      · exact Out.noConfusion h
      · exact Out.noConfusion h
      · injection h with h1 h2 h3
        exact h1.symm
      · split at h
        · exact Out.noConfusion h
        · exact Out.noConfusion h
        · injection h with h1 h2 h3
          exact h1.symm
        · exact ih _ _ _ _ _ _ _ h

/-- Any error return from readMap carries the nil slices. -/
theorem readMap_no_partial (fuel : Nat) :
    ∀ i kv e r, readMap fuel i = .ret kv (some e) r → kv = none := by
  intro i kv e r h
  cases fuel with
  | zero => exact Out.noConfusion h
  | succ fuel =>
    rw [readMap] at h
    split at h
    · exact Out.noConfusion h
    · exact Out.noConfusion h
    · exact readMapChunkLoop_no_partial fuel _ _ _ _ _ _ h
    · injection h with h1 h2 h3
      exact h1.symm
    · split at h
      · exact Out.noConfusion h
      · exact readMapFixLoop_no_partial fuel _ _ _ _ _ _ _ h

/-- Claim C7.  Whenever readArray or readMap returns a non-nil error,
the returned sequence is the nil slice: no partial aggregate ever
reaches a caller. -/
theorem c7_no_partial_results :
    (∀ fuel i v e r, readArray fuel i = .ret v (some e) r → v = none) ∧
    (∀ fuel i kv e r, readMap fuel i = .ret kv (some e) r → kv = none) :=
  ⟨fun fuel => readArray_no_partial fuel, fun fuel => readMap_no_partial fuel⟩

/-- Witness for claim C7: a streamed aggregate whose first element read
hits end of stream fails with the nil slice. -/
theorem c7_witness :
    readArray 5 (("?\r\n").data) = .ret none (some .ioErr) [] ∧
    readMap 5 (("?\r\n").data) = .ret none (some .ioErr) [] ∧
    (none : Option (List (Option Message))) = none ∧
    (none : Option (List (Option Message) × List (Option Message))) = none :=
  ⟨rfl, rfl, c7_no_partial_results.1 5 (("?\r\n").data) none .ioErr [] rfl,
   c7_no_partial_results.2 5 (("?\r\n").data) none .ioErr [] rfl⟩

/-- Claim C9.  When the underlying blob read succeeds, VerbatimString
yields no message and no error for a decoded blob of length at most
four, and otherwise yields a Verbatim message whose type code is the
first three characters and whose text is everything after the
fourth. -/
theorem c9_verbatim_split :
    ∀ i s r, blobString i = .ret s none r →
      VerbatimString i =
        (if s.length ≤ 4 then .ret none none r
         else .ret (some (.mverbatim (s.take 3) (s.drop 4) none)) none r) := by
  intro i s r h
  simp only [VerbatimString, h]
  by_cases hs : s.length ≤ 4 <;> simp [hs]

/-- Witness for claim C9: a successfully read empty blob is skipped
with no error. -/
theorem c9_witness :
    blobString (("0\r\n\r\n").data) = .ret ("") none [] ∧
    VerbatimString (("0\r\n\r\n").data) = .ret none none [] :=
  ⟨rfl, by simpa using c9_verbatim_split (("0\r\n\r\n").data) ("") [] rfl⟩

/-- Claim C10.  A Double or Boolean line whose text parses successfully
yields no message and no error, which at the ReadNext interface is the
same outcome as the stream-end sentinel; a Double or Boolean message
value is only ever returned together with a non-nil error. -/
theorem c10_inverted_parse_results :
    (∀ i s r, simpleString i = .ret s none r → (goParseFloat s).2 = none →
      Double i = .ret none none r) ∧
    (∀ i s r, simpleString i = .ret s none r → (goParseBool s).2 = none →
      Boolean i = .ret none none r) ∧
    (∀ i m e r, Double i = .ret (some m) e r → e ≠ none) ∧
    (∀ i m e r, Boolean i = .ret (some m) e r → e ≠ none) ∧
    (∀ fuel, ReadNext (fuel + 2) ((",3.14\r\n").data) = .ret none none [] ∧
      ReadNext (fuel + 2) (("#t\r\n").data) = .ret none none [] ∧
      ReadNext (fuel + 2) ((".\r\n").data) = .ret none none []) := by
  refine ⟨?_, ?_, ?_, ?_, ?_⟩
  · intro i s r h hp
    simp [Double, h, hp]
  · intro i s r h hp
    simp [Boolean, h, hp]
  · intro i m e r h
    simp only [Double] at h
    split at h
    · exact Out.noConfusion h
    · exact Out.noConfusion h
    · injection h with h1 h2 h3
      exact Option.noConfusion h1
    · split at h
      · injection h with h1 h2 h3
        exact Option.noConfusion h1
      · rename_i hpf
        injection h with h1 h2 h3
        exact h2 ▸ hpf
  · intro i m e r h
    simp only [Boolean] at h
    split at h
    · exact Out.noConfusion h
    · exact Out.noConfusion h
    · injection h with h1 h2 h3
      exact Option.noConfusion h1
    · split at h
      · injection h with h1 h2 h3
        exact Option.noConfusion h1
      · rename_i hpf
        injection h with h1 h2 h3
        exact h2 ▸ hpf
  · intro fuel
    exact ⟨rfl, rfl, rfl⟩

/-- Witness for claim C10 at concrete successfully parsed lines. -/
theorem c10_witness :
    simpleString (("3.14\r\n").data) = .ret ("3.14") none [] ∧
    (goParseFloat ("3.14")).2 = none ∧
    Double (("3.14\r\n").data) = .ret none none [] ∧
    Boolean (("t\r\n").data) = .ret none none [] ∧
    ReadNext 2 ((",3.14\r\n").data) = .ret none none [] :=
  ⟨rfl, rfl,
   c10_inverted_parse_results.1 (("3.14\r\n").data) ("3.14") [] rfl rfl,
   c10_inverted_parse_results.2.1 (("t\r\n").data) ("t") [] rfl rfl,
   (c10_inverted_parse_results.2.2.2.2 0).1⟩

end Resp3
